import Mathlib

/-!
Verification of the admission-control / IP-banning subsystem of the
`zionjs/endpoin` repository (source: `src/Restfull-Api-main/src/middleware/rateLimiter.js`).

The JavaScript module keeps two pieces of process-wide state:
an object `banned` mapping IPs to ban metadata (mirrored to disk on every
mutation) and a `Map` `ipTimestamps` from IPs to request-timestamp arrays.
We embed both as association lists, timestamps as `Nat` milliseconds, and
the fallible file-system operations (`fs.writeFileSync`, `fs.appendFileSync`)
as functions parameterised by a success flag, since the JS code catches and
logs every such failure without propagating it.
-/

namespace RateLimiter

/-- Ban metadata: one value of the JS `banned` object
(`{ bannedAt, reason, by }`; the `by` field is called `bannedBy` here
because `by` is a Lean keyword).  `bannedAt` is a millisecond timestamp. -/
structure BanRecord where
  bannedAt : Nat
  reason : String
  bannedBy : String
deriving Repr, DecidableEq

/-- The `banned` object, as an association list keyed by IP string. -/
abbrev BanMap := List (String × BanRecord)

/-- The `ipTimestamps` map, as an association list keyed by IP string. -/
abbrev TsMap := List (String × List Nat)

/-- Lookup of a key in an association list (JS property / `Map.get`). -/
def lookupKey {α : Type} (k : String) : List (String × α) → Option α
  | [] => none
  | (k', v) :: rest => if k' = k then some v else lookupKey k rest

/-- Assignment `obj[k] = v` / `map.set(k, v)`: replace the binding if the
key is present, otherwise append a new binding. -/
def setKey {α : Type} (k : String) (v : α) : List (String × α) → List (String × α)
  | [] => [(k, v)]
  | (k', v') :: rest => if k' = k then (k, v) :: rest else (k', v') :: setKey k v rest

/-- `delete obj[k]` / `map.delete(k)`: remove the binding of `k`. -/
def eraseKey {α : Type} (k : String) : List (String × α) → List (String × α)
  | [] => []
  | (k', v') :: rest => if k' = k then rest else (k', v') :: eraseKey k rest

/-- `WINDOW_MS = 10 * 1000` — module-level default window. -/
def WINDOW_MS : Nat := 10 * 1000

/-- `MAX_REQUESTS = 25` — module-level default threshold. -/
def MAX_REQUESTS : Nat := 25

/-- `CLEANUP_INTERVAL_MS = 60 * 1000`. -/
def CLEANUP_INTERVAL_MS : Nat := 60 * 1000

/-- The module's mutable state: the in-memory `banned` object, the copy of
it last successfully written to `banned-ips.json` (`persisted`), the
`ipTimestamps` map, and the lines appended so far to `request-logs.log`. -/
structure RLState where
  banned : BanMap
  persisted : BanMap
  ipTimestamps : TsMap
  log : List String
deriving Repr, DecidableEq

/-- Outcome flags for the fallible file-system calls of one operation:
whether `fs.writeFileSync(BANNED_FILE, …)` succeeds and whether
`fs.appendFileSync(REQUEST_LOG, …)` succeeds. -/
structure IOEnv where
  saveOk : Bool
  logOk : Bool
deriving Repr, DecidableEq

/-- `appendLog(line)`: appends a line to the request log; a write failure is
caught (`console.error`) and leaves the log as it was. -/
def appendLog (env : IOEnv) (line : String) (st : RLState) : RLState :=
  if env.logOk then { st with log := st.log ++ [line] } else st

/-- `saveBanned()`: writes the whole in-memory `banned` object to disk; a
write failure is caught (`console.error`) and leaves the persisted copy
as it was.  The in-memory state is untouched either way. -/
def saveBanned (env : IOEnv) (st : RLState) : RLState :=
  if env.saveOk then { st with persisted := st.banned } else st

/-- What `fs.readFileSync(BANNED_FILE)` followed by `JSON.parse` can yield
at startup. -/
inductive ReadResult where
  | fileError
  | emptyFile
  | parseError
  | parsed (m : BanMap)
deriving Repr, DecidableEq

/-- `loadBanned()`: rehydrates the ban map at startup.  Returns the map the
module ends up with and whether an error was reported (`console.error`):
a read failure or a parse failure yields the empty map with a warning, an
empty file yields the empty map silently (`raw ? JSON.parse(raw) : {}`). -/
def loadBanned : ReadResult → BanMap × Bool
  | ReadResult.fileError => ([], true)
  | ReadResult.emptyFile => ([], false)
  | ReadResult.parseError => ([], true)
  | ReadResult.parsed m => (m, false)

/-- `banIp(ip, reason)`: unconditionally assigns
`banned[ip] = { bannedAt: now, reason, by: "rateLimiter" }`, flushes the
map and appends a `[BAN]` log line. -/
def banIp (env : IOEnv) (now : Nat) (ip reason : String) (st : RLState) : RLState :=
  let st1 : RLState := { st with banned := setKey ip ⟨now, reason, "rateLimiter"⟩ st.banned }
  let st2 := saveBanned env st1
  appendLog env ("[BAN] " ++ toString now ++ " " ++ ip ++ " reason=" ++ reason) st2

/-- `unbanIp(ip)`: if `banned[ip]` exists, deletes it, flushes the map,
appends an `[UNBAN]` line and returns `true`; otherwise returns `false`
without touching anything. -/
def unbanIp (env : IOEnv) (now : Nat) (ip : String) (st : RLState) : Bool × RLState :=
  if (lookupKey ip st.banned).isSome then
    let st1 : RLState := { st with banned := eraseKey ip st.banned }
    let st2 := saveBanned env st1
    (true, appendLog env ("[UNBAN] " ++ toString now ++ " " ++ ip) st2)
  else (false, st)

/-- `cleanup()`: for every tracked IP, keeps only timestamps with
`now - t <= WINDOW_MS` (the module constant, not any configured window)
and deletes the entry when nothing remains. -/
def cleanup (now : Nat) (m : TsMap) : TsMap :=
  m.filterMap (fun p =>
    let filtered := p.2.filter (fun t => now - t ≤ WINDOW_MS)
    if filtered.length = 0 then none else some (p.1, filtered))

/-- JS `||` on an optional number: `0` is falsy, so both `undefined` and
`0` fall back to the default. -/
def jsOrNat (o : Option Nat) (d : Nat) : Nat :=
  match o with
  | some n => if n = 0 then d else n
  | none => d

/-- JS `||` on an optional string: the empty string is falsy. -/
def jsOrStr (a : Option String) (b : String) : String :=
  match a with
  | some s => if s = "" then b else s
  | none => b

/-- The option handling of the middleware factory
`rateLimiterMiddleware(options)`: the effective
`(maxRequests, windowMs)` pair. -/
def rateLimiterMiddleware (optMaxRequests optWindowMs : Option Nat) : Nat × Nat :=
  (jsOrNat optMaxRequests MAX_REQUESTS, jsOrNat optWindowMs WINDOW_MS)

/-- `req.ip || req.headers["x-forwarded-for"] || req.connection.remoteAddress
|| "unknown"`. -/
def resolveIp (reqIp xff remoteAddress : Option String) : String :=
  jsOrStr reqIp (jsOrStr xff (jsOrStr remoteAddress "unknown"))

/-- The admit/deny result of one middleware invocation. -/
inductive Decision where
  | allowed (count : Nat)
  | deniedBanned (bannedAt : Nat) (reason : String)
  | deniedRateLimited
deriving Repr, DecidableEq

/-- One invocation of the middleware returned by `rateLimiterMiddleware`:
if the IP is banned, respond 403 with the stored `bannedAt`/`reason` and
log a `[BLOCKED_REQ]` line without touching `ipTimestamps`; otherwise push
`now`, filter the array against `windowMs`, store and log it, and ban with
a 429 when the count is strictly above `maxReq`. -/
def rateLimiterStep (maxReq windowMs : Nat) (env : IOEnv) (ip : String) (now : Nat)
    (st : RLState) : Decision × RLState :=
  match lookupKey ip st.banned with
  | some info =>
      (Decision.deniedBanned info.bannedAt info.reason,
       appendLog env ("[BLOCKED_REQ] " ++ toString now ++ " " ++ ip) st)
  | none =>
      let arr := (lookupKey ip st.ipTimestamps).getD []
      let arr2 := arr ++ [now]
      let recent := arr2.filter (fun t => now - t ≤ windowMs)
      let st1 : RLState := { st with ipTimestamps := setKey ip recent st.ipTimestamps }
      let st2 := appendLog env
        ("[REQ] " ++ toString now ++ " " ++ ip ++ " count=" ++ toString recent.length) st1
      if recent.length > maxReq then
        (Decision.deniedRateLimited,
         banIp env now ip
           ("exceeded_" ++ toString maxReq ++ "_per_" ++ toString windowMs ++ "ms") st2)
      else
        (Decision.allowed recent.length, st2)

/-- A sequence of requests from one IP at the given instants, threaded
through the middleware. -/
def runRequests (maxReq windowMs : Nat) (env : IOEnv) (ip : String) :
    List Nat → RLState → List Decision × RLState
  | [], st => ([], st)
  | t :: rest, st =>
      let r1 := rateLimiterStep maxReq windowMs env ip t st
      let r2 := runRequests maxReq windowMs env ip rest r1.2
      (r1.1 :: r2.1, r2.2)

/-- The distinct outcomes of `adminUnbanHandler` (HTTP 500 / 401 / 400 /
200 / 404 in the source). -/
inductive AdminResult where
  | misconfigured
  | unauthorized
  | missingIp
  | unbanned (ip : String)
  | notFound (ip : String)
deriving Repr, DecidableEq

/-- `adminUnbanHandler(req, res)`: `adminKey` is `process.env.ADMIN_KEY || null`
(`none` when unset or empty), `provided` is the header/body/query secret
(`none` when absent or falsy), `bodyIp` is `req.body.ip`. -/
def adminUnbanHandler (adminKey provided bodyIp : Option String) (env : IOEnv) (now : Nat)
    (st : RLState) : AdminResult × RLState :=
  match adminKey with
  | none => (AdminResult.misconfigured, st)
  | some key =>
      match provided with
      | none => (AdminResult.unauthorized, st)
      | some p =>
          if p = key then
            match bodyIp with
            | none => (AdminResult.missingIp, st)
            | some ip =>
                let r := unbanIp env now ip st
                if r.1 then (AdminResult.unbanned ip, r.2) else (AdminResult.notFound ip, r.2)
          else (AdminResult.unauthorized, st)

/-- The module's initial in-memory state with an empty ban file. -/
def st0 : RLState := ⟨[], [], [], []⟩

/-- The all-successful file-system environment. -/
def okEnv : IOEnv := ⟨true, true⟩

/-- A ban map holding a single record, used to instantiate theorems. -/
def c2banned : BanMap := [("1.2.3.4", ⟨5, "first", "rateLimiter"⟩)]

/-- A state in which `1.2.3.4` is already banned. -/
def c2state : RLState := ⟨c2banned, c2banned, [], []⟩

/-- A JS-falsy optional string: absent or empty. -/
def strFalsy (o : Option String) : Prop := o = none ∨ o = some ""

theorem lookupKey_setKey_self {α : Type} (k : String) (v : α) (l : List (String × α)) :
    lookupKey k (setKey k v l) = some v := by
  induction l with
  | nil => simp [setKey, lookupKey]
  | cons p rest ih =>
      obtain ⟨k', v'⟩ := p
      by_cases h : k' = k
      · simp [setKey, h, lookupKey]
      · simp [setKey, h, lookupKey, ih]

theorem lookupKey_eq_none_of_not_mem {α : Type} (k : String) (l : List (String × α))
    (h : k ∉ l.map Prod.fst) : lookupKey k l = none := by
  induction l with
  | nil => rfl
  | cons p rest ih =>
      obtain ⟨k', v'⟩ := p
      simp only [List.map_cons, List.mem_cons, not_or] at h
      have h1 : ¬ k' = k := fun hk => h.1 hk.symm
      simp [lookupKey, h1, ih h.2]

theorem lookupKey_eraseKey_self {α : Type} (k : String) (l : List (String × α))
    (hnd : (l.map Prod.fst).Nodup) : lookupKey k (eraseKey k l) = none := by
  induction l with
  | nil => rfl
  | cons p rest ih =>
      obtain ⟨k', v'⟩ := p
      rw [List.map_cons, List.nodup_cons] at hnd
      by_cases h : k' = k
      · subst h
        simpa [eraseKey] using lookupKey_eq_none_of_not_mem k' rest hnd.1
      · simp [eraseKey, h, lookupKey, ih hnd.2]

theorem lookupKey_eraseKey_ne {α : Type} (k q : String) (l : List (String × α))
    (h : q ≠ k) : lookupKey q (eraseKey k l) = lookupKey q l := by
  induction l with
  | nil => rfl
  | cons p rest ih =>
      obtain ⟨k', v'⟩ := p
      by_cases hk : k' = k
      · subst hk
        have h1 : ¬ k' = q := fun hq => h hq.symm
        simp [eraseKey, lookupKey, h1]
      · simp [eraseKey, hk, lookupKey, ih]

theorem appendLog_banned (env : IOEnv) (line : String) (st : RLState) :
    (appendLog env line st).banned = st.banned := by
  unfold appendLog; split <;> rfl

theorem appendLog_persisted (env : IOEnv) (line : String) (st : RLState) :
    (appendLog env line st).persisted = st.persisted := by
  unfold appendLog; split <;> rfl

theorem appendLog_ipTimestamps (env : IOEnv) (line : String) (st : RLState) :
    (appendLog env line st).ipTimestamps = st.ipTimestamps := by
  unfold appendLog; split <;> rfl

theorem saveBanned_banned (env : IOEnv) (st : RLState) :
    (saveBanned env st).banned = st.banned := by
  unfold saveBanned; split <;> rfl

theorem saveBanned_ipTimestamps (env : IOEnv) (st : RLState) :
    (saveBanned env st).ipTimestamps = st.ipTimestamps := by
  unfold saveBanned; split <;> rfl

theorem saveBanned_persisted_ok (env : IOEnv) (st : RLState) (h : env.saveOk = true) :
    (saveBanned env st).persisted = st.banned := by
  unfold saveBanned; rw [h]; simp

theorem saveBanned_persisted_fail (lok : Bool) (st : RLState) :
    (saveBanned ⟨false, lok⟩ st).persisted = st.persisted := by
  unfold saveBanned; rfl

theorem banIp_banned (env : IOEnv) (now : Nat) (ip reason : String) (st : RLState) :
    (banIp env now ip reason st).banned
      = setKey ip ⟨now, reason, "rateLimiter"⟩ st.banned := by
  unfold banIp
  rw [appendLog_banned, saveBanned_banned]

theorem banIp_ipTimestamps (env : IOEnv) (now : Nat) (ip reason : String) (st : RLState) :
    (banIp env now ip reason st).ipTimestamps = st.ipTimestamps := by
  unfold banIp
  rw [appendLog_ipTimestamps, saveBanned_ipTimestamps]

theorem rateLimiterStep_fst_env (maxReq windowMs : Nat) (e1 e2 : IOEnv) (ip : String)
    (now : Nat) (st : RLState) :
    (rateLimiterStep maxReq windowMs e1 ip now st).1
      = (rateLimiterStep maxReq windowMs e2 ip now st).1 := by
  unfold rateLimiterStep
  cases h : lookupKey ip st.banned with
  | some info => rfl
  | none =>
      simp only []
      split_ifs <;> rfl

theorem rateLimiterStep_tracker (maxReq windowMs : Nat) (env : IOEnv) (ip : String)
    (now : Nat) (st : RLState) (hb : lookupKey ip st.banned = none) :
    (rateLimiterStep maxReq windowMs env ip now st).2.ipTimestamps
      = setKey ip
          (((lookupKey ip st.ipTimestamps).getD [] ++ [now]).filter
            (fun t => now - t ≤ windowMs))
          st.ipTimestamps := by
  simp only [rateLimiterStep, hb]
  split_ifs
  · rw [banIp_ipTimestamps, appendLog_ipTimestamps]
  · rw [appendLog_ipTimestamps]

theorem rateLimiterStep_allowed (maxReq windowMs : Nat) (env : IOEnv) (ip : String)
    (now : Nat) (st : RLState) (pre : List Nat)
    (hb : lookupKey ip st.banned = none)
    (ht : (lookupKey ip st.ipTimestamps).getD [] = pre)
    (hkeep : ∀ t ∈ pre, now - t ≤ windowMs)
    (hcnt : pre.length + 1 ≤ maxReq) :
    (rateLimiterStep maxReq windowMs env ip now st).1 = Decision.allowed (pre.length + 1)
    ∧ (rateLimiterStep maxReq windowMs env ip now st).2.banned = st.banned
    ∧ (lookupKey ip (rateLimiterStep maxReq windowMs env ip now st).2.ipTimestamps).getD []
        = pre ++ [now] := by
  have hr : (pre ++ [now]).filter (fun t => now - t ≤ windowMs) = pre ++ [now] := by
    rw [List.filter_eq_self]
    intro t htm
    rcases List.mem_append.mp htm with h1 | h1
    · exact decide_eq_true (hkeep t h1)
    · rw [List.mem_singleton] at h1
      subst h1
      simp
  have hnotgt : ¬ (pre ++ [now]).length > maxReq := by
    rw [List.length_append, List.length_singleton]
    exact Nat.not_lt.mpr hcnt
  refine ⟨?_, ?_, ?_⟩
  · simp only [rateLimiterStep, hb, ht, hr, if_neg hnotgt]
    rw [List.length_append, List.length_singleton]
  · simp only [rateLimiterStep, hb, ht, hr, if_neg hnotgt]
    rw [appendLog_banned]
  · simp only [rateLimiterStep, hb, ht, hr, if_neg hnotgt]
    rw [appendLog_ipTimestamps]
    show (lookupKey ip (setKey ip (pre ++ [now]) st.ipTimestamps)).getD [] = pre ++ [now]
    rw [lookupKey_setKey_self]
    rfl

theorem rateLimiterStep_denied (maxReq windowMs : Nat) (env : IOEnv) (ip : String)
    (now : Nat) (st : RLState) (pre : List Nat)
    (hb : lookupKey ip st.banned = none)
    (ht : (lookupKey ip st.ipTimestamps).getD [] = pre)
    (hkeep : ∀ t ∈ pre, now - t ≤ windowMs)
    (hcnt : pre.length + 1 > maxReq) :
    (rateLimiterStep maxReq windowMs env ip now st).1 = Decision.deniedRateLimited
    ∧ lookupKey ip (rateLimiterStep maxReq windowMs env ip now st).2.banned
        = some ⟨now,
            "exceeded_" ++ toString maxReq ++ "_per_" ++ toString windowMs ++ "ms",
            "rateLimiter"⟩ := by
  have hr : (pre ++ [now]).filter (fun t => now - t ≤ windowMs) = pre ++ [now] := by
    rw [List.filter_eq_self]
    intro t htm
    rcases List.mem_append.mp htm with h1 | h1
    · exact decide_eq_true (hkeep t h1)
    · rw [List.mem_singleton] at h1
      subst h1
      simp
  have hgt : (pre ++ [now]).length > maxReq := by
    rw [List.length_append, List.length_singleton]
    exact hcnt
  constructor
  · simp only [rateLimiterStep, hb, ht, hr, if_pos hgt]
  · simp only [rateLimiterStep, hb, ht, hr, if_pos hgt]
    rw [banIp_banned, lookupKey_setKey_self]

theorem rateLimiterStep_fresh (maxReq windowMs : Nat) (env : IOEnv) (ip : String)
    (now : Nat) (st : RLState)
    (hb : lookupKey ip st.banned = none)
    (hgap : ∀ t ∈ (lookupKey ip st.ipTimestamps).getD [], windowMs < now - t)
    (hm : 1 ≤ maxReq) :
    (rateLimiterStep maxReq windowMs env ip now st).1 = Decision.allowed 1 := by
  have hr : ((lookupKey ip st.ipTimestamps).getD [] ++ [now]).filter
      (fun t => now - t ≤ windowMs) = [now] := by
    rw [List.filter_append]
    have h1 : ((lookupKey ip st.ipTimestamps).getD []).filter
        (fun t => now - t ≤ windowMs) = [] := by
      rw [List.filter_eq_nil_iff]
      intro t htm
      simp only [decide_eq_true_eq]
      exact Nat.not_le.mpr (hgap t htm)
    rw [h1]
    simp
  have hnotgt : ¬ ([now] : List Nat).length > maxReq := by
    rw [List.length_singleton]
    exact Nat.not_lt.mpr hm
  simp only [rateLimiterStep, hb, hr, if_neg hnotgt]
  rfl

theorem unbanIp_ipTimestamps (env : IOEnv) (now : Nat) (ip : String) (st : RLState) :
    (unbanIp env now ip st).2.ipTimestamps = st.ipTimestamps := by
  unfold unbanIp
  split
  · dsimp only
    rw [appendLog_ipTimestamps, saveBanned_ipTimestamps]
  · rfl

theorem unbanIp_banned_of_isSome (env : IOEnv) (now : Nat) (ip : String) (st : RLState)
    (h : (lookupKey ip st.banned).isSome = true) :
    (unbanIp env now ip st).2.banned = eraseKey ip st.banned := by
  unfold unbanIp
  rw [h, if_pos rfl]
  dsimp only
  rw [appendLog_banned, saveBanned_banned]

theorem runRequests_append (maxReq windowMs : Nat) (env : IOEnv) (ip : String) :
    ∀ (as bs : List Nat) (st : RLState),
      runRequests maxReq windowMs env ip (as ++ bs) st
        = ((runRequests maxReq windowMs env ip as st).1
              ++ (runRequests maxReq windowMs env ip bs
                    (runRequests maxReq windowMs env ip as st).2).1,
           (runRequests maxReq windowMs env ip bs
              (runRequests maxReq windowMs env ip as st).2).2) := by
  intro as
  induction as with
  | nil => intro bs st; rfl
  | cons t rest ih =>
      intro bs st
      show ((rateLimiterStep maxReq windowMs env ip t st).1
              :: (runRequests maxReq windowMs env ip (rest ++ bs)
                    (rateLimiterStep maxReq windowMs env ip t st).2).1,
            (runRequests maxReq windowMs env ip (rest ++ bs)
              (rateLimiterStep maxReq windowMs env ip t st).2).2) = _
      rw [ih]
      rfl

theorem runRequests_all_allowed (maxReq windowMs : Nat) (env : IOEnv) (ip : String) :
    ∀ (ts : List Nat) (st : RLState) (pre : List Nat),
      lookupKey ip st.banned = none →
      (lookupKey ip st.ipTimestamps).getD [] = pre →
      (∀ p ∈ pre, ∀ t ∈ ts, t - p ≤ windowMs) →
      (∀ a ∈ ts, ∀ b ∈ ts, b - a ≤ windowMs) →
      pre.length + ts.length ≤ maxReq →
      (runRequests maxReq windowMs env ip ts st).1
          = (List.range ts.length).map (fun i => Decision.allowed (pre.length + i + 1))
      ∧ lookupKey ip (runRequests maxReq windowMs env ip ts st).2.banned = none
      ∧ (lookupKey ip (runRequests maxReq windowMs env ip ts st).2.ipTimestamps).getD []
          = pre ++ ts := by
  intro ts
  induction ts with
  | nil =>
      intro st pre hb ht hpre hts hlen
      exact ⟨rfl, hb, by simpa using ht⟩
  | cons t rest ih =>
      intro st pre hb ht hpre hts hlen
      have hkeep : ∀ p ∈ pre, t - p ≤ windowMs :=
        fun p hp => hpre p hp t (List.mem_cons_self t rest)
      have hcnt : pre.length + 1 ≤ maxReq := by
        rw [List.length_cons] at hlen
        omega
      have hstep := rateLimiterStep_allowed maxReq windowMs env ip t st pre hb ht hkeep hcnt
      have hb' : lookupKey ip (rateLimiterStep maxReq windowMs env ip t st).2.banned = none := by
        rw [hstep.2.1]; exact hb
      have hpre' : ∀ p ∈ pre ++ [t], ∀ u ∈ rest, u - p ≤ windowMs := by
        intro p hp u hu
        rcases List.mem_append.mp hp with h1 | h1
        · exact hpre p h1 u (List.mem_cons_of_mem t hu)
        · rw [List.mem_singleton] at h1
          subst h1
          exact hts p (List.mem_cons_self p rest) u (List.mem_cons_of_mem p hu)
      have hts' : ∀ a ∈ rest, ∀ b ∈ rest, b - a ≤ windowMs :=
        fun a ha b hbm => hts a (List.mem_cons_of_mem t ha) b (List.mem_cons_of_mem t hbm)
      have hlen' : (pre ++ [t]).length + rest.length ≤ maxReq := by
        rw [List.length_append, List.length_singleton]
        rw [List.length_cons] at hlen
        omega
      have hrec := ih (rateLimiterStep maxReq windowMs env ip t st).2 (pre ++ [t])
        hb' hstep.2.2 hpre' hts' hlen'
      have hfun : ((fun i => Decision.allowed (pre.length + i + 1)) ∘ Nat.succ)
          = fun i => Decision.allowed ((pre ++ [t]).length + i + 1) := by
        funext i
        simp only [Function.comp_apply, List.length_append, List.length_singleton]
        congr 1
        omega
      have hmap : List.map (fun i => Decision.allowed (pre.length + i + 1))
            (List.range (t :: rest).length)
          = Decision.allowed (pre.length + 1)
            :: List.map (fun i => Decision.allowed ((pre ++ [t]).length + i + 1))
                (List.range rest.length) := by
        rw [List.length_cons, List.range_succ_eq_map, List.map_cons, List.map_map, hfun]
      refine ⟨?_, ?_, ?_⟩
      · show (rateLimiterStep maxReq windowMs env ip t st).1
            :: (runRequests maxReq windowMs env ip rest
                  (rateLimiterStep maxReq windowMs env ip t st).2).1
            = List.map (fun i => Decision.allowed (pre.length + i + 1))
                (List.range (t :: rest).length)
        rw [hstep.1, hrec.1, hmap]
      · show lookupKey ip (runRequests maxReq windowMs env ip rest
              (rateLimiterStep maxReq windowMs env ip t st).2).2.banned = none
        exact hrec.2.1
      · show (lookupKey ip (runRequests maxReq windowMs env ip rest
              (rateLimiterStep maxReq windowMs env ip t st).2).2.ipTimestamps).getD []
            = pre ++ t :: rest
        rw [hrec.2.2]
        simp

/-- C2 counterexample: `banIp` on the already-banned identifier `1.2.3.4`
(whose record has `bannedAt = 5`) overwrites the record, so the stored
`bannedAt` changes — the claim that `bannedAt`/`reason` are preserved is
false on the code. -/
theorem c2_counterexample :
    (lookupKey "1.2.3.4" (banIp okEnv 100 "1.2.3.4" "second" c2state).banned).map
        BanRecord.bannedAt
      ≠ (lookupKey "1.2.3.4" c2state.banned).map BanRecord.bannedAt := by
  decide

/-- C2 (amended): `banIp` on an already-banned identifier is not first-ban-wins
but last-ban-wins: it overwrites the record with the new `bannedAt = now` and
the new `reason`. -/
theorem c2_last_ban_wins (env : IOEnv) (now : Nat) (ip reason : String) (st : RLState)
    (r : BanRecord) (h : lookupKey ip st.banned = some r) :
    lookupKey ip (banIp env now ip reason st).banned
      = some ⟨now, reason, "rateLimiter"⟩ := by
  rw [banIp_banned, lookupKey_setKey_self]

theorem c2_last_ban_wins_witness :
    lookupKey "1.2.3.4" (banIp okEnv 100 "1.2.3.4" "second" c2state).banned
      = some ⟨100, "second", "rateLimiter"⟩ :=
  c2_last_ban_wins okEnv 100 "1.2.3.4" "second" c2state ⟨5, "first", "rateLimiter"⟩ rfl

/-- C4: a banned identifier is always denied with the stored `bannedAt` and
`reason`, at every instant `now` (bans never expire), and the banned branch
neither reads nor writes the window tracker and leaves the ban map intact. -/
theorem c4_banned_always_denied (maxReq windowMs : Nat) (env : IOEnv) (ip : String)
    (now : Nat) (st : RLState) (info : BanRecord)
    (h : lookupKey ip st.banned = some info) :
    (rateLimiterStep maxReq windowMs env ip now st).1
        = Decision.deniedBanned info.bannedAt info.reason
    ∧ (rateLimiterStep maxReq windowMs env ip now st).2.ipTimestamps = st.ipTimestamps
    ∧ (rateLimiterStep maxReq windowMs env ip now st).2.banned = st.banned
    ∧ (env.logOk = true →
        (rateLimiterStep maxReq windowMs env ip now st).2.log
          = st.log ++ ["[BLOCKED_REQ] " ++ toString now ++ " " ++ ip]) := by
  unfold rateLimiterStep
  rw [h]
  refine ⟨rfl, appendLog_ipTimestamps .., appendLog_banned .., fun hl => ?_⟩
  show (appendLog env ("[BLOCKED_REQ] " ++ toString now ++ " " ++ ip) st).log = _
  unfold appendLog
  rw [hl]
  rfl

theorem c4_witness :
    (rateLimiterStep 25 10000 okEnv "1.2.3.4" 999999999 c2state).1
        = Decision.deniedBanned 5 "first"
    ∧ (rateLimiterStep 25 10000 okEnv "1.2.3.4" 999999999 c2state).2.ipTimestamps
        = c2state.ipTimestamps
    ∧ (rateLimiterStep 25 10000 okEnv "1.2.3.4" 999999999 c2state).2.banned
        = c2state.banned := by
  have h := c4_banned_always_denied 25 10000 okEnv "1.2.3.4" 999999999 c2state
    ⟨5, "first", "rateLimiter"⟩ rfl
  exact ⟨h.1, h.2.1, h.2.2.1⟩

/-- C7: `unbanIp` on a not-banned identifier returns `false` and leaves the
whole state (persisted copy included) untouched; on a banned identifier it
returns `true`, removes exactly that record (that key gone, all other keys
unchanged) and, when the write succeeds, persists the updated map. -/
theorem c7_unban (env : IOEnv) (now : Nat) (ip : String) (st : RLState)
    (hnd : (st.banned.map Prod.fst).Nodup) :
    (lookupKey ip st.banned = none → unbanIp env now ip st = (false, st))
    ∧ (∀ info : BanRecord, lookupKey ip st.banned = some info →
        (unbanIp env now ip st).1 = true
        ∧ lookupKey ip (unbanIp env now ip st).2.banned = none
        ∧ (∀ k : String, k ≠ ip →
            lookupKey k (unbanIp env now ip st).2.banned = lookupKey k st.banned)
        ∧ (env.saveOk = true →
            (unbanIp env now ip st).2.persisted = (unbanIp env now ip st).2.banned)) := by
  constructor
  · intro h
    unfold unbanIp
    rw [h]
    rfl
  · intro info h
    have he : unbanIp env now ip st
        = (true, appendLog env ("[UNBAN] " ++ toString now ++ " " ++ ip)
            (saveBanned env { st with banned := eraseKey ip st.banned })) := by
      unfold unbanIp
      rw [h]
      rfl
    rw [he]
    refine ⟨rfl, ?_, fun k hk => ?_, fun hs => ?_⟩
    · rw [appendLog_banned, saveBanned_banned]
      exact lookupKey_eraseKey_self ip st.banned hnd
    · rw [appendLog_banned, saveBanned_banned]
      exact lookupKey_eraseKey_ne ip k st.banned hk
    · rw [appendLog_persisted, saveBanned_persisted_ok _ _ hs, appendLog_banned,
        saveBanned_banned]

theorem c7_witness :
    unbanIp okEnv 7 "9.9.9.9" c2state = (false, c2state)
    ∧ (unbanIp okEnv 7 "1.2.3.4" c2state).1 = true
    ∧ lookupKey "1.2.3.4" (unbanIp okEnv 7 "1.2.3.4" c2state).2.banned = none
    ∧ (unbanIp okEnv 7 "1.2.3.4" c2state).2.persisted
        = (unbanIp okEnv 7 "1.2.3.4" c2state).2.banned := by
  have h1 := c7_unban okEnv 7 "9.9.9.9" c2state (by decide)
  have h2 := c7_unban okEnv 7 "1.2.3.4" c2state (by decide)
  have h3 := h2.2 ⟨5, "first", "rateLimiter"⟩ rfl
  exact ⟨h1.1 rfl, h3.1, h3.2.1, h3.2.2.2 rfl⟩

/-- C6: the admin unban path distinguishes its outcomes: no configured secret
gives `misconfigured` (distinct from `unauthorized`); a configured secret with
a missing or mismatching provided secret gives `unauthorized`; an authorized
call gives `unbanned` exactly when the identifier was banned and `notFound`
otherwise. -/
theorem c6_admin_outcomes (provided bodyIp : Option String) (env : IOEnv) (now : Nat)
    (st : RLState) :
    (adminUnbanHandler none provided bodyIp env now st).1 = AdminResult.misconfigured
    ∧ AdminResult.misconfigured ≠ AdminResult.unauthorized
    ∧ (∀ key : String,
        (adminUnbanHandler (some key) none bodyIp env now st).1 = AdminResult.unauthorized)
    ∧ (∀ key p : String, p ≠ key →
        (adminUnbanHandler (some key) (some p) bodyIp env now st).1
          = AdminResult.unauthorized)
    ∧ (∀ key ip : String, (lookupKey ip st.banned).isSome = true →
        (adminUnbanHandler (some key) (some key) (some ip) env now st).1
          = AdminResult.unbanned ip)
    ∧ (∀ key ip : String, lookupKey ip st.banned = none →
        (adminUnbanHandler (some key) (some key) (some ip) env now st).1
          = AdminResult.notFound ip) := by
  refine ⟨rfl, ?_, fun key => rfl, fun key p hp => ?_, fun key ip hb => ?_,
    fun key ip hb => ?_⟩
  · decide
  · simp [adminUnbanHandler, hp]
  · simp [adminUnbanHandler, unbanIp, hb]
  · simp [adminUnbanHandler, unbanIp, hb]

theorem c6_witness :
    (adminUnbanHandler none (some "s") (some "1.2.3.4") okEnv 0 c2state).1
        = AdminResult.misconfigured
    ∧ AdminResult.misconfigured ≠ AdminResult.unauthorized
    ∧ (adminUnbanHandler (some "k") none (some "1.2.3.4") okEnv 0 c2state).1
        = AdminResult.unauthorized
    ∧ (adminUnbanHandler (some "k") (some "wrong") (some "1.2.3.4") okEnv 0 c2state).1
        = AdminResult.unauthorized
    ∧ (adminUnbanHandler (some "k") (some "k") (some "1.2.3.4") okEnv 0 c2state).1
        = AdminResult.unbanned "1.2.3.4"
    ∧ (adminUnbanHandler (some "k") (some "k") (some "9.9.9.9") okEnv 0 c2state).1
        = AdminResult.notFound "9.9.9.9" := by
  have h := c6_admin_outcomes (some "s") (some "1.2.3.4") okEnv 0 c2state
  exact ⟨h.1, h.2.1, h.2.2.1 "k", h.2.2.2.1 "k" "wrong" (by decide),
    h.2.2.2.2.1 "k" "1.2.3.4" rfl, h.2.2.2.2.2 "k" "9.9.9.9" rfl⟩

/-- C8: durability failures never reach the decision path: the in-memory ban
record is installed by `banIp` for every file-system outcome; a failed map
write leaves only the persisted copy behind; a failed log append leaves the
state untouched; the admit/deny decision is identical under failing and
succeeding file systems; and at startup an unreadable or unparsable ban file
yields the empty map plus a logged warning instead of a crash. -/
theorem c8_durability (env : IOEnv) (now : Nat) (ip reason : String) (st : RLState)
    (maxReq windowMs : Nat) :
    lookupKey ip (banIp env now ip reason st).banned = some ⟨now, reason, "rateLimiter"⟩
    ∧ (banIp ⟨false, env.logOk⟩ now ip reason st).persisted = st.persisted
    ∧ appendLog ⟨env.saveOk, false⟩ reason st = st
    ∧ (rateLimiterStep maxReq windowMs env ip now st).1
        = (rateLimiterStep maxReq windowMs okEnv ip now st).1
    ∧ loadBanned ReadResult.fileError = ([], true)
    ∧ loadBanned ReadResult.parseError = ([], true) := by
  refine ⟨?_, ?_, rfl, rateLimiterStep_fst_env .., rfl, rfl⟩
  · rw [banIp_banned, lookupKey_setKey_self]
  · unfold banIp
    rw [appendLog_persisted, saveBanned_persisted_fail]

theorem c8_witness :
    lookupKey "1.2.3.4" (banIp ⟨false, false⟩ 9 "1.2.3.4" "r" st0).banned
        = some ⟨9, "r", "rateLimiter"⟩
    ∧ (banIp ⟨false, false⟩ 9 "1.2.3.4" "r" st0).persisted = st0.persisted
    ∧ loadBanned ReadResult.fileError = ([], true) := by
  have h := c8_durability ⟨false, false⟩ 9 "1.2.3.4" "r" st0 25 10000
  exact ⟨h.1, h.2.1, h.2.2.2.2.1⟩

/-- C10: whenever `req.ip`, the `x-forwarded-for` header and the remote
address are all absent or empty, the middleware uses the literal identifier
`unknown`; such requests therefore share one sliding window (two
identifierless requests against `maxRequests = 1` trip the threshold
together) and, once banned, one shared `BanRecord` blocks every later
identifierless request. -/
theorem c10_unknown_fallback (a b c : Option String)
    (h1 : strFalsy a) (h2 : strFalsy b) (h3 : strFalsy c) :
    resolveIp a b c = "unknown"
    ∧ (runRequests 1 1000 okEnv (resolveIp none none none) [0, 1] st0).1
        = [Decision.allowed 1, Decision.deniedRateLimited]
    ∧ (rateLimiterStep 1 1000 okEnv (resolveIp none (some "") (some "")) 2
        (runRequests 1 1000 okEnv (resolveIp none none none) [0, 1] st0).2).1
        = Decision.deniedBanned 1 "exceeded_1_per_1000ms" := by
  refine ⟨?_, by decide, by decide⟩
  rcases h1 with rfl | rfl <;> rcases h2 with rfl | rfl <;> rcases h3 with rfl | rfl <;> rfl

/-- C1: from a clean state, for requests all lying within one window of each
other, each of the first `maxReq` requests is allowed with counts 1..maxReq,
the `(maxReq+1)`-th is denied with a rate-limit rejection (the comparison is
strict `>`), and a `BanRecord` for the identifier is created immediately,
stamped with the final request's time. -/
theorem c1_strict_threshold (maxReq windowMs : Nat) (env : IOEnv) (ip : String)
    (ts : List Nat) (tl : Nat) (st : RLState)
    (hb : lookupKey ip st.banned = none)
    (ht : (lookupKey ip st.ipTimestamps).getD [] = [])
    (hlen : ts.length = maxReq + 1)
    (hwin : ∀ a ∈ ts, ∀ b ∈ ts, b - a ≤ windowMs)
    (htl : ts.getLast? = some tl) :
    (runRequests maxReq windowMs env ip ts st).1
        = (List.range maxReq).map (fun i => Decision.allowed (i + 1))
            ++ [Decision.deniedRateLimited]
    ∧ lookupKey ip (runRequests maxReq windowMs env ip ts st).2.banned
        = some ⟨tl, "exceeded_" ++ toString maxReq ++ "_per_" ++ toString windowMs ++ "ms",
            "rateLimiter"⟩ := by
  have hne : ts ≠ [] := by
    intro h
    rw [h] at hlen
    simp at hlen
  have hgl : ts.getLast hne = tl := by
    rw [List.getLast?_eq_getLast ts hne] at htl
    exact Option.some_inj.mp htl
  have hsplit : ts.dropLast ++ [tl] = ts := by
    rw [← hgl]
    exact List.dropLast_append_getLast hne
  have hdl : ts.dropLast.length = maxReq := by
    rw [List.length_dropLast, hlen]
    omega
  have hmemdl : ∀ a ∈ ts.dropLast, a ∈ ts := by
    intro a ha
    rw [← hsplit]
    exact List.mem_append_left _ ha
  have htlmem : tl ∈ ts := by
    rw [← hsplit]
    exact List.mem_append_right _ (List.mem_singleton_self tl)
  have hrun := runRequests_all_allowed maxReq windowMs env ip ts.dropLast st []
    hb ht (by intro p hp; cases hp)
    (fun a ha b hbm => hwin a (hmemdl a ha) b (hmemdl b hbm))
    (by simp [hdl])
  have hstep := rateLimiterStep_denied maxReq windowMs env ip tl
    (runRequests maxReq windowMs env ip ts.dropLast st).2 ts.dropLast
    hrun.2.1 (by simpa using hrun.2.2)
    (fun p hp => hwin p (hmemdl p hp) tl htlmem)
    (by rw [hdl]; omega)
  have happ := runRequests_append maxReq windowMs env ip ts.dropLast [tl] st
  have h1 : (runRequests maxReq windowMs env ip ts st).1
      = (runRequests maxReq windowMs env ip ts.dropLast st).1
        ++ [(rateLimiterStep maxReq windowMs env ip tl
              (runRequests maxReq windowMs env ip ts.dropLast st).2).1] := by
    conv_lhs => rw [← hsplit, happ]
    rfl
  have h2 : (runRequests maxReq windowMs env ip ts st).2
      = (rateLimiterStep maxReq windowMs env ip tl
          (runRequests maxReq windowMs env ip ts.dropLast st).2).2 := by
    conv_lhs => rw [← hsplit, happ]
    rfl
  have hf0 : (fun i => Decision.allowed (List.length ([] : List Nat) + i + 1))
      = fun i => Decision.allowed (i + 1) := by
    funext i
    congr 1
    simp
  have hdec : (runRequests maxReq windowMs env ip ts.dropLast st).1
      = (List.range maxReq).map (fun i => Decision.allowed (i + 1)) := by
    rw [hrun.1, hdl, hf0]
  constructor
  · rw [h1, hdec, hstep.1]
  · rw [h2]
    exact hstep.2

theorem c1_witness :
    (runRequests 2 1000 okEnv "A" [0, 100, 200] st0).1
        = (List.range 2).map (fun i => Decision.allowed (i + 1))
            ++ [Decision.deniedRateLimited]
    ∧ lookupKey "A" (runRequests 2 1000 okEnv "A" [0, 100, 200] st0).2.banned
        = some ⟨200, "exceeded_" ++ toString 2 ++ "_per_" ++ toString 1000 ++ "ms",
            "rateLimiter"⟩ :=
  c1_strict_threshold 2 1000 okEnv "A" [0, 100, 200] 200 st0 rfl rfl rfl (by decide) rfl

/-- C3 counterexample: identifier `A` trips the threshold (`maxRequests = 1`)
at times 0 and 1, is banned, and is successfully unbanned at time 2; its next
request at time 3 is NOT admitted with a count of 1 — the retained tracker
timestamps still count, so it is rate-limit denied again. -/
theorem c3_counterexample :
    (unbanIp okEnv 2 "A" (runRequests 1 1000 okEnv "A" [0, 1] st0).2).1 = true
    ∧ (rateLimiterStep 1 1000 okEnv "A" 3
        (unbanIp okEnv 2 "A" (runRequests 1 1000 okEnv "A" [0, 1] st0).2).2).1
        = Decision.deniedRateLimited
    ∧ (rateLimiterStep 1 1000 okEnv "A" 3
        (unbanIp okEnv 2 "A" (runRequests 1 1000 okEnv "A" [0, 1] st0).2).2).1
        ≠ Decision.allowed 1 := by
  decide

/-- C3 (amended): after a successful unban the identifier's window tracker is
retained, so the next request is admitted with a count of 1 only when every
previously recorded timestamp has aged beyond `windowMs` at that instant (it
is evaluated against the surviving timestamps otherwise). -/
theorem c3_fresh_after_unban (maxReq windowMs : Nat) (e1 e2 : IOEnv) (ip : String)
    (u now : Nat) (st : RLState)
    (hnd : (st.banned.map Prod.fst).Nodup)
    (hbanned : (lookupKey ip st.banned).isSome = true)
    (hgap : ∀ t ∈ (lookupKey ip st.ipTimestamps).getD [], windowMs < now - t)
    (hm : 1 ≤ maxReq) :
    (unbanIp e1 u ip st).1 = true
    ∧ (rateLimiterStep maxReq windowMs e2 ip now (unbanIp e1 u ip st).2).1
        = Decision.allowed 1 := by
  constructor
  · unfold unbanIp
    rw [hbanned, if_pos rfl]
  · apply rateLimiterStep_fresh
    · rw [unbanIp_banned_of_isSome _ _ _ _ hbanned]
      exact lookupKey_eraseKey_self ip st.banned hnd
    · rw [unbanIp_ipTimestamps]
      exact hgap
    · exact hm

theorem c3_witness :
    (unbanIp okEnv 2 "A"
        ⟨[("A", ⟨1, "r", "rateLimiter"⟩)], [("A", ⟨1, "r", "rateLimiter"⟩)],
          [("A", [0, 1])], []⟩).1 = true
    ∧ (rateLimiterStep 1 1000 okEnv "A" 2000
        (unbanIp okEnv 2 "A"
          ⟨[("A", ⟨1, "r", "rateLimiter"⟩)], [("A", ⟨1, "r", "rateLimiter"⟩)],
            [("A", [0, 1])], []⟩).2).1 = Decision.allowed 1 :=
  c3_fresh_after_unban 1 1000 okEnv okEnv "A" 2 2000
    ⟨[("A", ⟨1, "r", "rateLimiter"⟩)], [("A", ⟨1, "r", "rateLimiter"⟩)],
      [("A", [0, 1])], []⟩
    (by decide) rfl (by decide) (by decide)

/-- C5: for a not-banned identifier, every timestamp retained by the step
satisfies `now - t ≤ windowMs`, the current request's timestamp is among
them, and when every previously recorded timestamp is strictly older than
the window the request is allowed with a fresh count of 1. -/
theorem c5_window_filter (maxReq windowMs : Nat) (env : IOEnv) (ip : String) (now : Nat)
    (st : RLState) (hb : lookupKey ip st.banned = none) :
    (∀ t ∈ (lookupKey ip
        (rateLimiterStep maxReq windowMs env ip now st).2.ipTimestamps).getD [],
        now - t ≤ windowMs)
    ∧ now ∈ (lookupKey ip
        (rateLimiterStep maxReq windowMs env ip now st).2.ipTimestamps).getD []
    ∧ ((∀ t ∈ (lookupKey ip st.ipTimestamps).getD [], windowMs < now - t) →
        1 ≤ maxReq →
        (rateLimiterStep maxReq windowMs env ip now st).1 = Decision.allowed 1) := by
  have htr := rateLimiterStep_tracker maxReq windowMs env ip now st hb
  refine ⟨?_, ?_, fun hgap hm =>
    rateLimiterStep_fresh maxReq windowMs env ip now st hb hgap hm⟩
  · intro t htm
    rw [htr, lookupKey_setKey_self] at htm
    simp only [Option.getD_some] at htm
    exact of_decide_eq_true (List.mem_filter.mp htm).2
  · rw [htr, lookupKey_setKey_self]
    simp only [Option.getD_some]
    apply List.mem_filter.mpr
    refine ⟨List.mem_append_right _ (List.mem_singleton_self now), ?_⟩
    simp

theorem c5_witness :
    (rateLimiterStep 3 1000 okEnv "A" 5000 ⟨[], [], [("A", [0])], []⟩).1
        = Decision.allowed 1
    ∧ (5000 : Nat) ∈ (lookupKey "A"
        (rateLimiterStep 3 1000 okEnv "A" 5000
          ⟨[], [], [("A", [0])], []⟩).2.ipTimestamps).getD [] := by
  have h := c5_window_filter 3 1000 okEnv "A" 5000 ⟨[], [], [("A", [0])], []⟩ rfl
  exact ⟨h.2.2 (by decide) (by decide), h.2.1⟩

/-- C9: the cleanup task filters with the module constant `WINDOW_MS = 10000`,
not the configured window: for every configured `windowMs` above 10000 ms
(which the factory does adopt), the timestamp 0 at instant 10001 is still
inside the configured window, yet a cleanup run deletes it — so a request at
10001 counts 2 without cleanup but only 1 after cleanup. -/
theorem c9_cleanup_uses_module_window (windowMs : Nat) (h : WINDOW_MS < windowMs) :
    (rateLimiterMiddleware none (some windowMs)).2 = windowMs
    ∧ (10001 : Nat) - 0 ≤ windowMs
    ∧ cleanup 10001 [("a", [0])] = []
    ∧ (rateLimiterStep 25 windowMs okEnv "a" 10001 ⟨[], [], [("a", [0])], []⟩).1
        = Decision.allowed 2
    ∧ (rateLimiterStep 25 windowMs okEnv "a" 10001
        ⟨[], [], cleanup 10001 [("a", [0])], []⟩).1 = Decision.allowed 1 := by
  have hw : WINDOW_MS = 10000 := rfl
  rw [hw] at h
  have hwm0 : ¬ windowMs = 0 := by omega
  refine ⟨?_, by omega, by decide, ?_, ?_⟩
  · show (if windowMs = 0 then WINDOW_MS else windowMs) = windowMs
    exact if_neg hwm0
  · have hkeep : ∀ t ∈ ([0] : List Nat), 10001 - t ≤ windowMs := by
      intro t htm
      rw [List.mem_singleton] at htm
      subst htm
      omega
    exact (rateLimiterStep_allowed 25 windowMs okEnv "a" 10001
      ⟨[], [], [("a", [0])], []⟩ [0] rfl rfl hkeep (by decide)).1
  · have hclean : cleanup 10001 [("a", [0])] = [] := by decide
    rw [hclean]
    exact (rateLimiterStep_allowed 25 windowMs okEnv "a" 10001
      ⟨[], [], [], []⟩ [] rfl rfl (by intro t htm; cases htm) (by decide)).1

theorem c9_witness :
    (rateLimiterMiddleware none (some 20000)).2 = 20000
    ∧ (10001 : Nat) - 0 ≤ 20000
    ∧ cleanup 10001 [("a", [0])] = []
    ∧ (rateLimiterStep 25 20000 okEnv "a" 10001 ⟨[], [], [("a", [0])], []⟩).1
        = Decision.allowed 2
    ∧ (rateLimiterStep 25 20000 okEnv "a" 10001
        ⟨[], [], cleanup 10001 [("a", [0])], []⟩).1 = Decision.allowed 1 :=
  c9_cleanup_uses_module_window 20000 (by decide)

theorem c10_witness :
    resolveIp none (some "") none = "unknown"
    ∧ (runRequests 1 1000 okEnv (resolveIp none none none) [0, 1] st0).1
        = [Decision.allowed 1, Decision.deniedRateLimited]
    ∧ (rateLimiterStep 1 1000 okEnv (resolveIp none (some "") (some "")) 2
        (runRequests 1 1000 okEnv (resolveIp none none none) [0, 1] st0).2).1
        = Decision.deniedBanned 1 "exceeded_1_per_1000ms" :=
  c10_unknown_fallback none (some "") none (Or.inl rfl) (Or.inr rfl) (Or.inl rfl)

end RateLimiter
